import Mathlib

set_option autoImplicit false

/- Shallow embedding of the garbage-collector allocator core of the
   `lockfree` repository: src/gc/allocator/heap_block_header.rs,
   src/gc/allocator/tl_allocator.rs, src/gc/allocator.rs,
   src/gc/allocator/collector/mod.rs, src/gc/allocator/collector/sweeping.rs
   and src/gc/smart_pointers.rs.

   Addresses and sizes are modelled as Nat.  `GCHeapBlockHeader` is
   `repr(C, align(16))` with four 8-byte fields, so
   `size_of::<GCHeapBlockHeader>() = 32` and `align_of = 16`. -/

def HEADER_SIZE : Nat := 32

def HEADER_ALIGN : Nat := 16

def HEADERFLAG_NONE : Nat := 0x00

def HEADERFLAG_ALLOCATED : Nat := 0x01

/-- Mask used by `set_free`: `!HEADERFLAG_ALLOCATED` on a 64-bit `usize`. -/
def USIZE_NOT_ALLOCATED : Nat := 0xFFFFFFFFFFFFFFFE

/-- Observable behaviour of a destructor thunk `unsafe fn(*mut ())`: when the
collector runs it, user code either returns normally or panics with a payload
(sweeping.rs wraps the call in `catch_unwind`). -/
inductive ThunkBehavior where
  | returns
  | panics (payload : String)
  deriving DecidableEq

/-- The heap block header (heap_block_header.rs lines 16-22).  `next_free`
holds the address of the next free header, `flags` is the `HeaderFlag` word,
`drop_thunk` the optional destructor thunk. -/
structure GCHeapBlockHeader where
  next_free : Option Nat
  size : Nat
  flags : Nat
  drop_thunk : Option ThunkBehavior
  deriving DecidableEq

/-- Test of the ALLOCATED bit of `flags` (`is_allocated`, lines 33-36).  The
Rust function also debug-asserts `next_free.is_none()` for allocated blocks;
that well-formedness side condition holds on every state built here. -/
def GCHeapBlockHeader.is_allocated (b : GCHeapBlockHeader) : Bool :=
  (b.flags &&& HEADERFLAG_ALLOCATED) != 0

/-- Address of the data span of a header placed at `a` (`data()`, lines
67-71): the data begins directly after the header. -/
def data_addr (a : Nat) : Nat := a + HEADER_SIZE

/-- Address arithmetic of `next()` (lines 74-77): this header's address plus
the header size plus `size`. -/
def block_next (a : Nat) (b : GCHeapBlockHeader) : Nat :=
  a + HEADER_SIZE + b.size

/-- Error type of `shrink_to_fit` (heap_block_header.rs lines 24-29). -/
inductive BlockFittingError where
  | BlockTooSmall
  | CantFitNextBlock
  | NotEnoughAlignedRoom
  deriving DecidableEq

/-- Result of `shrink_to_fit`: `fits self2 newBlock ret consumed` returns the
mutated receiver `self2`, the optionally written fresh header (address and
contents), the address of the returned usable block, and the header bytes
consumed.  `aborted` stands for a panic (a failed `assert!` or the `todo!()`
arm). -/
inductive ShrinkOutcome where
  | fits (self2 : GCHeapBlockHeader) (newBlock : Option (Nat × GCHeapBlockHeader))
      (ret : Nat) (consumed : Nat)
  | noFit (e : BlockFittingError)
  | aborted
  deriving DecidableEq

/-- Smallest multiple of `m` that is at least `n` (`usize::next_multiple_of`
for the arguments arising here, where `m > 0`). -/
def nextMultipleOf (n m : Nat) : Nat :=
  if m = 0 then n else ((n + m - 1) / m) * m

/-- The splitting algorithm `shrink_to_fit` (heap_block_header.rs lines
79-156), for a free header `self` located at address `selfAddr` and a
requested layout of `lsize` bytes with alignment `lalign` (a power of two, so
`is_aligned_to` is the test `mod align = 0`).  Followed line by line:
the entry asserts, the `BlockTooSmall` test, the aligned branch with its
end-split / exact-fit / `CantFitNextBlock` cases, and the unaligned branch
that carves a new header at `next_aligned`.  The unaligned branch reaches a
`todo!()` when a second split would be possible; that arm is `aborted`. -/
def shrink_to_fit (selfAddr : Nat) (self : GCHeapBlockHeader)
    (lsize lalign : Nat) : ShrinkOutcome :=
  if self.is_allocated then .aborted
  else if self.size < HEADER_ALIGN then .aborted
  else
    let align := max lalign HEADER_ALIGN
    let padded_size := nextMultipleOf lsize HEADER_ALIGN
    let dataAddr := data_addr selfAddr
    if self.size < padded_size then .noFit .BlockTooSmall
    else if dataAddr % align = 0 then
      if padded_size + HEADER_SIZE < self.size then
        let next_block_size := self.size - padded_size - HEADER_SIZE
        let next_block : GCHeapBlockHeader :=
          { next_free := self.next_free
            size := next_block_size
            flags := HEADERFLAG_NONE
            drop_thunk := none }
        let self2 := { self with
          next_free := some (dataAddr + padded_size)
          size := padded_size }
        .fits self2 (some (dataAddr + padded_size, next_block)) selfAddr HEADER_SIZE
      else if self.next_free = none ∧ padded_size ≤ self.size then
        .fits self none selfAddr 0
      else .noFit .CantFitNextBlock
    else
      let next_aligned := nextMultipleOf (dataAddr + HEADER_SIZE + 1) align
      let data_end := dataAddr + self.size
      if data_end < next_aligned + padded_size then .noFit .NotEnoughAlignedRoom
      else
        let aligned_block : GCHeapBlockHeader :=
          { next_free := self.next_free
            size := data_end - next_aligned
            flags := HEADERFLAG_NONE
            drop_thunk := none }
        let self2 := { self with
          next_free := some next_aligned
          size := next_aligned - dataAddr }
        if next_aligned + padded_size + HEADER_SIZE < data_end then .aborted
        else .fits self2 (some (next_aligned, aligned_block)) next_aligned HEADER_SIZE

/-- Contiguity of the block list (the invariant stated in the doc comment of
`GCHeapBlockHeader` and re-checked by the heap walks): starting at `start`,
each listed header sits exactly where the previous block's `next()` points,
and the last block's `next()` is the end-of-heap address `hEnd`. -/
def chainOK : Nat → List (Nat × GCHeapBlockHeader) → Nat → Bool
  | start, [], hEnd => start == hEnd
  | start, (a, h) :: rest, hEnd => (a == start) && chainOK (block_next a h) rest hEnd

/-- A free block at address 16 whose data spans `[48, 144)`; the heap (or the
next header of the list) ends at 144. -/
def c1_block : GCHeapBlockHeader :=
  { next_free := none, size := 96, flags := HEADERFLAG_NONE, drop_thunk := none }

/-- C1.  Split consistency fails on the unaligned path of `shrink_to_fit`:
for the free block at 16 with size 96 (one-block list ending at 144) and a
request of 32 bytes aligned to 32, the code carves the aligned block at 96
but gives it `size = data_end - next_aligned = 48`, so its `next()` is
176, 32 bytes past the true end 144 of the block list: the list was
`chainOK` before the split and is not afterwards.  (The code forgets to
subtract the header size it placed at 96, contradicting the header's own
invariant that `size` data bytes follow each header.) -/
theorem c1_split_breaks_next_arithmetic :
    shrink_to_fit 16 c1_block 32 32 =
      .fits { next_free := some 96, size := 48, flags := HEADERFLAG_NONE, drop_thunk := none }
        (some (96, { next_free := none, size := 48, flags := HEADERFLAG_NONE, drop_thunk := none }))
        96 HEADER_SIZE
    ∧ chainOK 16 [(16, c1_block)] 144 = true
    ∧ block_next 96 { next_free := none, size := 48, flags := HEADERFLAG_NONE, drop_thunk := none } = 176
    ∧ chainOK 16
        [(16, { next_free := some 96, size := 48, flags := HEADERFLAG_NONE, drop_thunk := none }),
         (96, { next_free := none, size := 48, flags := HEADERFLAG_NONE, drop_thunk := none })]
        144 = false := by
  refine ⟨by decide, by decide, by decide, by decide⟩

/-- A free block at address 16 with an exactly fitting data span of 112 bytes
whose free-list link is set. -/
def c5_block : GCHeapBlockHeader :=
  { next_free := some 999, size := 112, flags := HEADERFLAG_NONE, drop_thunk := none }

/-- C5 counterexample.  The claim says a block with exactly enough aligned
room and no valid header-sized remainder is returned unsplit regardless of
the value of its free link.  False: for the exactly fitting block at 16 with
`next_free = some 999` and layout (112, 16), `shrink_to_fit` returns
`CantFitNextBlock` instead of the block itself (the exact-fit arm demands
`self.next_free.is_none()`). -/
theorem c5_counterexample :
    ¬ (shrink_to_fit 16 c5_block 112 16 = .fits c5_block none 16 0) ∧
    shrink_to_fit 16 c5_block 112 16 = .noFit .CantFitNextBlock := by
  refine ⟨by decide, by decide⟩

/-- C5 amended.  For a free block whose data is aligned as requested and
whose size lies between the padded request and the padded request plus one
header (so there is no valid header-sized remainder), `shrink_to_fit`
returns the block itself unsplit consuming zero header bytes when the
block's free link is `None`, and fails with `CantFitNextBlock` when the
free link is set. -/
theorem c5_exact_fit_requires_clear_free_link
    (selfAddr : Nat) (b : GCHeapBlockHeader) (lsize lalign : Nat)
    (hfree : b.is_allocated = false)
    (hmin : HEADER_ALIGN ≤ b.size)
    (halign : data_addr selfAddr % max lalign HEADER_ALIGN = 0)
    (hfit : nextMultipleOf lsize HEADER_ALIGN ≤ b.size)
    (hnoRem : b.size ≤ nextMultipleOf lsize HEADER_ALIGN + HEADER_SIZE) :
    shrink_to_fit selfAddr b lsize lalign =
      (if b.next_free = none then .fits b none selfAddr 0
       else .noFit .CantFitNextBlock) := by
  unfold shrink_to_fit
  rw [if_neg (by simp [hfree]), if_neg (by omega), if_neg (by omega), if_pos halign,
    if_neg (by omega)]
  by_cases hnf : b.next_free = none
  · rw [if_pos hnf, if_pos ⟨hnf, hfit⟩]
  · rw [if_neg hnf, if_neg (by intro h; exact hnf h.1)]

/-- Witness for the amended C5 theorem: the exactly fitting block with a
clear free link really is returned unsplit. -/
theorem c5_witness :
    shrink_to_fit 16 { c5_block with next_free := none } 112 16 =
      (if ({ c5_block with next_free := none } : GCHeapBlockHeader).next_free = none
       then .fits { c5_block with next_free := none } none 16 0
       else .noFit .CantFitNextBlock) :=
  c5_exact_fit_requires_clear_free_link 16 { c5_block with next_free := none } 112 16
    (by decide) (by decide) (by decide) (by decide) (by decide)

/- The thread-local allocator (tl_allocator.rs).  Heap memory is modelled as
   a finite map from header addresses to headers; the memory source
   (os_dependent's MemorySource, Windows implementation with 0x1000-byte
   pages) as a bump source that can fail (OutOfMemory). -/

abbrev Store := List (Nat × GCHeapBlockHeader)

/-- Read the header stored at address `a`. -/
def lookupB : Store → Nat → Option GCHeapBlockHeader
  | [], _ => none
  | (b, h) :: rest, a => if b = a then some h else lookupB rest a

/-- Write the header at address `a` (overwriting, or extending the committed
map when the address is fresh, as a raw store to memory does). -/
def updateB : Store → Nat → GCHeapBlockHeader → Store
  | [], a, h => [(a, h)]
  | (b, h0) :: rest, a, h =>
    if b = a then (a, h) :: rest else (b, h0) :: updateB rest a h

/-- Store to the `next_free` field of the header at address `a`. -/
def setNextFree (s : Store) (a : Nat) (nf : Option Nat) : Store :=
  match lookupB s a with
  | none => s
  | some h => updateB s a { h with next_free := nf }

/-- Memory source state: page size, the next committed address, and how many
pages can still be committed before the reservation is exhausted. -/
structure MemSource where
  page_size : Nat
  next_addr : Nat
  pages_remaining : Nat
  deriving DecidableEq

/-- The `grow_by(num_pages)` contract: `num_pages * page_size` fresh bytes or
`None` when the reservation is exhausted. -/
def growBy (m : MemSource) (pages : Nat) : Option (MemSource × Nat × Nat) :=
  if pages ≤ m.pages_remaining then
    some ({ m with
              next_addr := m.next_addr + pages * m.page_size
              pages_remaining := m.pages_remaining - pages },
          m.next_addr, pages * m.page_size)
  else none

/-- Error type `GCAllocatorError` (allocator.rs lines 45-51). -/
inductive GCAllocatorError where
  | ZeroSized
  | BadAlignment
  | OutOfMemory
  deriving DecidableEq

/-- State of one `TLAllocator`: its view of the memory source, the committed
headers, `free_list_head` and `num_free_bytes` (tl_allocator.rs lines 13-23). -/
structure TLState where
  mem : MemSource
  store : Store
  free_list_head : Option Nat
  num_free_bytes : Nat
  deriving DecidableEq

instance : Inhabited TLState := ⟨⟨⟨0, 0, 0⟩, [], none, 0⟩⟩

/-- Ceiling division, `usize::div_ceil` (divisor positive in every use). -/
def divCeil (n m : Nat) : Nat := (n + m - 1) / m

/-- Sum of `size` over the blocks reachable from a free-list head by
following `next_free`, with fuel; `none` means the walk dangled or ran out
of fuel.  This is the right-hand side of the documented invariant
`free_bytes = sum of size over all blocks reachable from free_list_head`. -/
def sumFreeList (s : Store) : Option Nat → Nat → Option Nat
  | none, _ => some 0
  | some _, 0 => none
  | some a, fuel + 1 =>
    match lookupB s a with
    | none => none
    | some h => (sumFreeList s h.next_free fuel).map (fun n => h.size + n)

/-- Constructor `try_new` (tl_allocator.rs lines 63-86): commit one page,
seed the free list with a single block covering it. -/
def try_new (m : MemSource) : Except GCAllocatorError TLState :=
  match growBy m 1 with
  | none => .error .OutOfMemory
  | some (m2, addr, len) =>
    let length := len - HEADER_SIZE
    .ok { mem := m2
          store := [(addr, ⟨none, length, HEADERFLAG_NONE, none⟩)]
          free_list_head := some addr
          num_free_bytes := length }

/-- Heap expansion `expand_by` (tl_allocator.rs lines 100-135): commit at
least `num_bytes` more bytes (rounded up to pages, one extra header
accounted), write a fresh free header over the new region, then either set
`free_list_head` to it (when `last_block` is `None`) or chain it behind
`last_block`; finally add the new block's size to `num_free_bytes`. -/
def expand_by (st : TLState) (num_bytes : Nat) (last_block : Option Nat) :
    Except GCAllocatorError (TLState × Nat) :=
  let num_pages := divCeil (num_bytes + HEADER_SIZE) st.mem.page_size
  match growBy st.mem num_pages with
  | none => .error .OutOfMemory
  | some (m2, addr, len) =>
    let block_size := len - HEADER_SIZE
    let store2 := updateB st.store addr ⟨none, block_size, HEADERFLAG_NONE, none⟩
    match last_block with
    | none =>
      .ok ({ mem := m2
             store := store2
             free_list_head := some addr
             num_free_bytes := st.num_free_bytes + block_size }, addr)
    | some lb =>
      .ok ({ mem := m2
             store := setNextFree store2 lb (some addr)
             free_list_head := st.free_list_head
             num_free_bytes := st.num_free_bytes + block_size }, addr)

/-- Flag update of `set_allocated` (heap_block_header.rs lines 41-48):
asserts the block is not already allocated (`none` models the panic), sets
the ALLOCATED flag and clears `next_free`. -/
def set_allocated (b : GCHeapBlockHeader) : Option GCHeapBlockHeader :=
  if b.is_allocated then none
  else some { b with flags := b.flags ||| HEADERFLAG_ALLOCATED, next_free := none }

/-- Flag update of `set_free` (heap_block_header.rs lines 53-60): asserts the
block is currently allocated, clears the ALLOCATED flag and stores the given
free link.  Note that `drop_thunk` is left untouched. -/
def set_free (b : GCHeapBlockHeader) (next : Option Nat) : Option GCHeapBlockHeader :=
  if b.is_allocated then
    some { b with flags := b.flags &&& USIZE_NOT_ALLOCATED, next_free := next }
  else none

/-- Collector-side `reclaim_block` (tl_allocator.rs lines 138-145): add the
block's size to `num_free_bytes` and push it on the free-list head via
`set_free` (`none` models a panic: unknown address or double free). -/
def reclaim_block (st : TLState) (addr : Nat) : Option TLState :=
  match lookupB st.store addr with
  | none => none
  | some b =>
    match set_free b st.free_list_head with
    | none => none
    | some b2 =>
      some { st with
        store := updateB st.store addr b2
        free_list_head := some addr
        num_free_bytes := st.num_free_bytes + b.size }

/-- Free-list unlink `pop_next` (tl_allocator.rs lines 152-174): given the
predecessor (`none` meaning the list head), pop the following block out of
the intrusive list and return it.  Outer `none` models a wild dereference. -/
def pop_next (st : TLState) (ptr : Option Nat) : Option (TLState × Option Nat) :=
  match ptr with
  | some p =>
    match lookupB st.store p with
    | none => none
    | some hp =>
      match hp.next_free with
      | none => some (st, none)
      | some nxt =>
        match lookupB st.store nxt with
        | none => none
        | some hn =>
          some ({ st with store := updateB st.store p { hp with next_free := hn.next_free } },
                some nxt)
  | none =>
    match st.free_list_head with
    | none => some (st, none)
    | some nxt =>
      match lookupB st.store nxt with
      | none => none
      | some hn => some ({ st with free_list_head := hn.next_free }, some nxt)

/-- Outcome of an allocator operation: success with the new state, a typed
error, or `fault` for a panic (failed assert/expect) or a wild memory
access/fuel exhaustion, which no concrete run below reaches. -/
inductive AllocOutcome (α : Type) where
  | ok (st : TLState) (val : α)
  | err (e : GCAllocatorError)
  | fault
  deriving DecidableEq

/-- The free-list scan loop of `find_good_block` (tl_allocator.rs lines
177-214): try `shrink_to_fit` on each candidate; on success write back the
mutated headers, track the predecessor across a front split, and charge the
consumed header bytes; on a fitting error move to `next_free`, expanding the
heap behind the list tail when the list is exhausted.  Returns the state
plus (predecessor, chosen block). -/
def find_good_block_loop (lsize lalign : Nat) :
    TLState → Option Nat → Nat → Nat → AllocOutcome (Option Nat × Nat)
  | _, _, _, 0 => .fault
  | st, previous, current, fuel + 1 =>
    match lookupB st.store current with
    | none => .fault
    | some cb =>
      if cb.is_allocated then .fault
      else
        match shrink_to_fit current cb lsize lalign with
        | .aborted => .fault
        | .fits self2 newB ret consumed =>
          let store1 := updateB st.store current self2
          let store2 := match newB with
            | none => store1
            | some (na, nh) => updateB store1 na nh
          if current ≠ ret ∧ self2.next_free ≠ some ret then .fault
          else if st.num_free_bytes < consumed then .fault
          else
            let st2 := { st with store := store2, num_free_bytes := st.num_free_bytes - consumed }
            if current ≠ ret then .ok st2 (some current, ret)
            else .ok st2 (previous, current)
        | .noFit _ =>
          match cb.next_free with
          | some p => find_good_block_loop lsize lalign st (some current) p fuel
          | none =>
            match expand_by st lsize (some current) with
            | .error e => .err e
            | .ok (st2, addr) => find_good_block_loop lsize lalign st2 (some current) addr fuel

/-- Epilogue of `find_good_block` (tl_allocator.rs lines 216-227): pop the
chosen block out of the list, mark it allocated and charge its final size. -/
def find_good_block (st : TLState) (lsize lalign fuel : Nat) : AllocOutcome Nat :=
  match st.free_list_head with
  | none => .fault
  | some head =>
    match find_good_block_loop lsize lalign st none head fuel with
    | .fault => .fault
    | .err e => .err e
    | .ok st1 (prev, _) =>
      match pop_next st1 prev with
      | none => .fault
      | some (st2, popped) =>
        match popped with
        | none => .fault
        | some rb =>
          match lookupB st2.store rb with
          | none => .fault
          | some hb =>
            match set_allocated hb with
            | none => .fault
            | some hb2 =>
              if hb2.size ≤ st2.num_free_bytes then
                .ok { st2 with
                        store := updateB st2.store rb hb2
                        num_free_bytes := st2.num_free_bytes - hb2.size } rb
              else .fault

/-- Main allocation entry `raw_allocate` (tl_allocator.rs lines 231-251):
reject zero-sized layouts and alignment above 16, expand when
`free_bytes < layout.size()` (passing `None` as the last block!), check the
`has_no_memory` coupling assert, then delegate to `find_good_block`; the
value is (block address, data address, data length). -/
def raw_allocate (st : TLState) (lsize lalign fuel : Nat) :
    AllocOutcome (Nat × Nat × Nat) :=
  if lsize = 0 then .err .ZeroSized
  else if 16 < lalign then .err .BadAlignment
  else
    let pre : Except GCAllocatorError TLState :=
      if st.num_free_bytes < lsize then (expand_by st lsize none).map (·.1)
      else .ok st
    match pre with
    | .error e => .err e
    | .ok st1 =>
      if st1.free_list_head.isNone = (st1.num_free_bytes == 0) then
        if st1.free_list_head.isNone then .fault
        else
          match find_good_block st1 lsize lalign fuel with
          | .ok st2 rb =>
            match lookupB st2.store rb with
            | none => .fault
            | some hb => .ok st2 (rb, data_addr rb, hb.size)
          | .err e => .err e
          | .fault => .fault
      else .fault

/-- Allocation with a destructor, `raw_allocate_with_drop` (tl_allocator.rs
lines 254-260): allocate, then store the drop thunk into the block header. -/
def raw_allocate_with_drop (st : TLState) (lsize lalign : Nat)
    (thunk : Option ThunkBehavior) (fuel : Nat) : AllocOutcome (Nat × Nat) :=
  match raw_allocate st lsize lalign fuel with
  | .ok st1 (blk, dAddr, dLen) =>
    match lookupB st1.store blk with
    | none => .fault
    | some hb =>
      .ok { st1 with store := updateB st1.store blk { hb with drop_thunk := thunk } }
        (dAddr, dLen)
  | .err e => .err e
  | .fault => .fault

/-- Typed allocation `TLAllocator::allocate_for_value` (tl_allocator.rs lines
30-59) for a value of size `sizeT` and alignment `alignT` whose destructor
behaves as `tb`: zero-sized values short-circuit to `NonNull::dangling()`
(address = the type's alignment) touching no allocator state; otherwise
allocate with the `dropper::<T>` thunk and check the sanity assert that the
returned slice holds a `T`.  The returned value is the data address. -/
def tl_allocate_for_value (st : TLState) (sizeT alignT : Nat)
    (tb : ThunkBehavior) (fuel : Nat) : AllocOutcome Nat :=
  if sizeT = 0 then .ok st alignT
  else
    match raw_allocate_with_drop st sizeT alignT (some tb) fuel with
    | .ok st1 (dAddr, dLen) => if sizeT ≤ dLen then .ok st1 dAddr else .fault
    | .err e => .err e
    | .fault => .fault

/- Claim C2: the free-bytes invariant across allocator operations. -/

/-- Memory source granting 0x1000-byte pages from address 2000, ten pages
left in the reservation. -/
def c2_memsource : MemSource := ⟨4096, 2000, 10⟩

/-- Allocator owning a single small free block at 1008 (size 16), with
`num_free_bytes = 16`: the documented invariant holds for it. -/
def c2_state : TLState :=
  { mem := c2_memsource
    store := [(1008, ⟨none, 16, HEADERFLAG_NONE, none⟩)]
    free_list_head := some 1008
    num_free_bytes := 16 }

/-- State after `raw_allocate(layout{size 100, align 8})` on `c2_state`:
the expand-on-exhaustion path replaced `free_list_head` with the freshly
committed block at 2000, silently dropping the block at 1008 from the free
list while keeping its 16 bytes counted in `num_free_bytes`. -/
def c2_after : TLState :=
  { mem := ⟨4096, 6096, 9⟩
    store := [(1008, ⟨none, 16, HEADERFLAG_NONE, none⟩),
              (2000, ⟨none, 112, HEADERFLAG_ALLOCATED, none⟩),
              (2144, ⟨none, 3920, HEADERFLAG_NONE, none⟩)]
    free_list_head := some 2144
    num_free_bytes := 3936 }

/-- C2.  The invariant `free_bytes = sum of size over blocks reachable from
free_list_head` is broken by `raw_allocate`'s expand-on-exhaustion path:
starting from `c2_state` (which satisfies the invariant), a request of 100
bytes makes `raw_allocate` call `expand_by(100, None)`, which overwrites
`free_list_head` with the new block and leaks the old chain; afterwards
`num_free_bytes` is 3936 but the reachable sum is 3920 at every fuel. -/
theorem c2_free_bytes_invariant_broken :
    sumFreeList c2_state.store c2_state.free_list_head 2 = some c2_state.num_free_bytes
    ∧ raw_allocate c2_state 100 8 10 = .ok c2_after (2000, 2032, 112)
    ∧ sumFreeList c2_after.store c2_after.free_list_head 2 = some 3920
    ∧ ∀ fuel, sumFreeList c2_after.store c2_after.free_list_head fuel ≠
        some c2_after.num_free_bytes := by
  refine ⟨by decide, by decide, by decide, ?_⟩
  intro fuel
  match fuel with
  | 0 => simp [sumFreeList, c2_after]
  | n + 1 => simp [sumFreeList, c2_after, lookupB]

/- Claim C3: the deallocation side-channel (allocator.rs). -/

/-- Block-list walk of `get_block` (allocator.rs lines 24-42), literally:
starting at the heap base, the first block whose address is strictly below
`ptr` is returned; past the end the walk yields `None` (after the
heap-corruption error log).  Outer `none` is a wild read or fuel
exhaustion. -/
def get_block_walk (s : Store) (hEnd p : Nat) : Nat → Nat → Option (Option Nat)
  | _, 0 => none
  | blockPtr, fuel + 1 =>
    if blockPtr < hEnd then
      if blockPtr < p then some (some blockPtr)
      else
        match lookupB s blockPtr with
        | none => none
        | some h => get_block_walk s hEnd p (block_next blockPtr h) fuel
    else some none

/-- Entry of `get_block`: the `MEMORY_SOURCE.contains` test followed by the
walk over `raw_data()`. -/
def get_block (s : Store) (heapStart heapLen p fuel : Nat) : Option (Option Nat) :=
  if heapStart ≤ p ∧ p < heapStart + heapLen then
    get_block_walk s (heapStart + heapLen) p heapStart fuel
  else some none

/-- The facade's `deallocate` (allocator.rs lines 121-133): assert alignment,
resolve the block with `get_block` (panicking if absent), clear that block's
`drop_thunk`, and push the data range `(ptr, layout.size())` onto
`DEALLOCATED_CHANNEL`. -/
def gc_deallocate (s : Store) (queue : List (Nat × Nat))
    (heapStart heapLen p lsize lalign fuel : Nat) :
    Option (Store × List (Nat × Nat)) :=
  if p % lalign = 0 then
    match get_block s heapStart heapLen p fuel with
    | some (some blk) =>
      match lookupB s blk with
      | none => none
      | some h =>
        some (updateB s blk { h with drop_thunk := none }, queue ++ [(p, lsize)])
    | _ => none
  else none

/-- Collector-side decoding of a queue entry (collector/mod.rs lines
251-258): the block header sits one header size before the data pointer. -/
def queue_to_block (entry : Nat × Nat) : Nat := entry.1 - HEADER_SIZE

/-- Two allocated blocks with registered destructors: at 16 and at 80, each
with 32 data bytes; the heap spans `[16, 144)`. -/
def c3_store : Store :=
  [(16, ⟨none, 32, HEADERFLAG_ALLOCATED, some .returns⟩),
   (80, ⟨none, 32, HEADERFLAG_ALLOCATED, some .returns⟩)]

/-- C3.  `deallocate` does stay out of every ThreadLocalAllocator and does
push the data range onto the collector queue (from which the collector
recovers the right block, 80), but it clears the destructor thunk of the
wrong block: for the pointer 112, which points into the data `[112, 144)` of
the block at 80, `get_block` returns the first block of the heap (16) —
its walk stops at the first header whose address is below the pointer —
so the thunk of block 16 is cleared while block 80 keeps its thunk (and
would be double-dropped by a later sweep).  This contradicts `get_block`'s
own documentation ("the GC heap block that a given pointer points into"). -/
theorem c3_deallocate_clears_wrong_thunk :
    gc_deallocate c3_store [] 16 128 112 32 4 10 =
      some ([(16, ⟨none, 32, HEADERFLAG_ALLOCATED, none⟩),
             (80, ⟨none, 32, HEADERFLAG_ALLOCATED, some .returns⟩)],
            [(112, 32)])
    ∧ get_block c3_store 16 128 112 10 = some (some 16)
    ∧ (data_addr 80 ≤ 112 ∧ 112 < block_next 80 ⟨none, 32, HEADERFLAG_ALLOCATED, some .returns⟩)
    ∧ queue_to_block (112, 32) = 80
    ∧ chainOK 16 c3_store 144 = true := by
  refine ⟨by decide, by decide, by decide, by decide, by decide⟩

/- Claim C4: block state transitions on allocate and reclaim. -/

/-- Allocator whose store holds one allocated block (with a registered
destructor) at address 100; its free list is empty. -/
def c4_state : TLState :=
  { mem := ⟨4096, 0, 0⟩
    store := [(100, ⟨none, 64, HEADERFLAG_ALLOCATED, some .returns⟩)]
    free_list_head := none
    num_free_bytes := 0 }

/-- C4 counterexample.  Reclaiming the allocated block at 100 does NOT clear
its destructor thunk, contrary to the claim: after `reclaim_block` the block
still carries `some returns` instead of `none` (`set_free` never touches
`drop_thunk`). -/
theorem c4_counterexample :
    ¬ ((reclaim_block c4_state 100).map
        (fun st => (lookupB st.store 100).map (fun h => h.drop_thunk))
        = some (some none)) ∧
    (reclaim_block c4_state 100).map
        (fun st => (lookupB st.store 100).map (fun h => h.drop_thunk))
      = some (some (some .returns)) := by
  refine ⟨by decide, by decide⟩

/-- Reading back the address just written returns the written header. -/
theorem lookupB_updateB_self (s : Store) (a : Nat) (h : GCHeapBlockHeader) :
    lookupB (updateB s a h) a = some h := by
  induction s with
  | nil => simp [updateB, lookupB]
  | cons p rest ih =>
    by_cases hp : p.1 = a
    · simp [updateB, hp, lookupB]
    · simp [updateB, hp, lookupB, ih]

/-- Auxiliary bit fact: clearing the ALLOCATED bit really turns
`is_allocated` off, for any flag word. -/
theorem land_mask_not_allocated (n : Nat) :
    (n &&& USIZE_NOT_ALLOCATED) &&& HEADERFLAG_ALLOCATED = 0 := by
  rw [Nat.land_assoc]
  norm_num [USIZE_NOT_ALLOCATED, HEADERFLAG_ALLOCATED]

/-- Auxiliary bit fact: setting the ALLOCATED bit really turns
`is_allocated` on, for any flag word. -/
theorem lor_allocated_land_one (n : Nat) :
    (n ||| HEADERFLAG_ALLOCATED) &&& HEADERFLAG_ALLOCATED = 1 := by
  have h : (n ||| 1).testBit 0 = true := by
    rw [Nat.testBit_lor]
    simp
  simp only [Nat.testBit_zero, decide_eq_true_eq] at h
  rw [HEADERFLAG_ALLOCATED, Nat.and_one_is_mod]
  exact h

/-- C4 amended.  On reclaim (`reclaim_block` via `set_free`) the allocated
flag is flipped off and the free link is attached (and the size credited
back), but the destructor thunk is left unchanged — it is cleared only by
the facade's explicit `deallocate`.  On allocation (`set_allocated`) the
flag is flipped on and the free link cleared, while the destructor is
attached separately by `raw_allocate_with_drop`, not by `set_allocated`. -/
theorem c4_reclaim_and_allocate_transitions
    (st : TLState) (addr : Nat) (b c : GCHeapBlockHeader)
    (hb : lookupB st.store addr = some b)
    (hballoc : b.is_allocated = true)
    (hcfree : c.is_allocated = false) :
    (∃ st2, reclaim_block st addr = some st2
      ∧ ∃ b2, lookupB st2.store addr = some b2
          ∧ b2.is_allocated = false
          ∧ b2.next_free = st.free_list_head
          ∧ b2.drop_thunk = b.drop_thunk
          ∧ b2.size = b.size
          ∧ st2.free_list_head = some addr
          ∧ st2.num_free_bytes = st.num_free_bytes + b.size)
    ∧ (∃ c2, set_allocated c = some c2
        ∧ c2.is_allocated = true
        ∧ c2.next_free = none
        ∧ c2.drop_thunk = c.drop_thunk
        ∧ c2.size = c.size) := by
  constructor
  · have hsf : set_free b st.free_list_head =
        some { b with flags := b.flags &&& USIZE_NOT_ALLOCATED, next_free := st.free_list_head } := by
      rw [set_free, if_pos hballoc]
    have hrb : reclaim_block st addr = some { st with
        store := updateB st.store addr
          { b with flags := b.flags &&& USIZE_NOT_ALLOCATED, next_free := st.free_list_head }
        free_list_head := some addr
        num_free_bytes := st.num_free_bytes + b.size } := by
      simp only [reclaim_block, hb, hsf]
    refine ⟨_, hrb, _, lookupB_updateB_self st.store addr _, ?_, rfl, rfl, rfl, rfl, rfl⟩
    simp [GCHeapBlockHeader.is_allocated, land_mask_not_allocated]
  · have hsa : set_allocated c =
        some { c with flags := c.flags ||| HEADERFLAG_ALLOCATED, next_free := none } := by
      rw [set_allocated, if_neg (by simp [hcfree])]
    refine ⟨_, hsa, ?_, rfl, rfl, rfl⟩
    simp [GCHeapBlockHeader.is_allocated, lor_allocated_land_one]

/-- Witness for the amended C4 theorem at the concrete allocator `c4_state`:
reclaiming the block at 100 flips the flag off, attaches the (empty) free
link, credits 64 bytes, and leaves the destructor thunk in place; allocating
a free header flips the flag on and clears the link without touching the
thunk. -/
theorem c4_witness :
    (∃ st2, reclaim_block c4_state 100 = some st2
      ∧ ∃ b2, lookupB st2.store 100 = some b2
          ∧ b2.is_allocated = false
          ∧ b2.next_free = none
          ∧ b2.drop_thunk = some .returns
          ∧ b2.size = 64
          ∧ st2.free_list_head = some 100
          ∧ st2.num_free_bytes = 64)
    ∧ (∃ c2, set_allocated ⟨none, 16, HEADERFLAG_NONE, none⟩ = some c2
        ∧ c2.is_allocated = true
        ∧ c2.next_free = none
        ∧ c2.drop_thunk = none
        ∧ c2.size = 16) :=
  c4_reclaim_and_allocate_transitions c4_state 100
    ⟨none, 64, HEADERFLAG_ALLOCATED, some .returns⟩
    ⟨none, 16, HEADERFLAG_NONE, none⟩ (by decide) (by decide) (by decide)

/- The facade (allocator.rs): `GCAllocator::allocate_for_value` with its
   retry-after-collection policy, and the raw `Allocator::allocate`. -/

/-- Result of the raw `Allocator::allocate` impl, whose error type is the
opaque `std::alloc::AllocError`. -/
inductive FacadeAllocOutcome where
  | ok (st : TLState) (dAddr dLen : Nat)
  | allocErr
  | fault
  deriving DecidableEq

/-- The facade's `allocate_for_value` (allocator.rs lines 58-76) for the
calling thread's allocator `st`: delegate to the thread-local
`allocate_for_value`; if and only if that fails with `OutOfMemory`, call
`wait_for_gc` (the second component counts those calls) and retry exactly
once against the post-collection allocator state `stAfterGC`, surfacing
whatever the retry returns.  Any other first result is surfaced directly. -/
def gc_allocate_for_value (st stAfterGC : TLState) (sizeT alignT : Nat)
    (tb : ThunkBehavior) (fuel : Nat) : AllocOutcome Nat × Nat :=
  match tl_allocate_for_value st sizeT alignT tb fuel with
  | .err .OutOfMemory => (tl_allocate_for_value stAfterGC sizeT alignT tb fuel, 1)
  | r => (r, 0)

/-- The raw `Allocator::allocate` impl (allocator.rs lines 99-110): rejects
zero-sized layouts up front, then delegates to `raw_allocate`, collapsing
every typed error into `AllocError`.  There is no retry here. -/
def gc_allocator_allocate (st : TLState) (lsize lalign fuel : Nat) :
    FacadeAllocOutcome :=
  if lsize = 0 then .allocErr
  else
    match raw_allocate st lsize lalign fuel with
    | .ok st1 (_, dAddr, dLen) => .ok st1 dAddr dLen
    | .err _ => .allocErr
    | .fault => .fault

/-- C7.  On an `OutOfMemory` failure the facade's allocation entry point
waits for one collection cycle (count 1) and retries exactly once,
surfacing the retry's result; any result other than `OutOfMemory` — success
or another error — is surfaced as is with no wait and no retry. -/
theorem c7_oom_waits_and_retries_exactly_once
    (st stGC : TLState) (sizeT alignT : Nat) (tb : ThunkBehavior) (fuel : Nat) :
    (tl_allocate_for_value st sizeT alignT tb fuel = .err .OutOfMemory →
      gc_allocate_for_value st stGC sizeT alignT tb fuel =
        (tl_allocate_for_value stGC sizeT alignT tb fuel, 1))
    ∧ (∀ r, tl_allocate_for_value st sizeT alignT tb fuel = r →
        r ≠ .err .OutOfMemory →
        gc_allocate_for_value st stGC sizeT alignT tb fuel = (r, 0)) := by
  constructor
  · intro h
    simp only [gc_allocate_for_value, h]
  · intro r hr hne
    cases r with
    | ok st2 v => simp only [gc_allocate_for_value, hr]
    | fault => simp only [gc_allocate_for_value, hr]
    | err e =>
      cases e with
      | OutOfMemory => exact absurd rfl hne
      | ZeroSized => simp only [gc_allocate_for_value, hr]
      | BadAlignment => simp only [gc_allocate_for_value, hr]

/-- Allocator with an empty free list and an exhausted reservation: every
non-trivial allocation fails with `OutOfMemory`. -/
def c7_oom_state : TLState :=
  { mem := ⟨4096, 2000, 0⟩
    store := []
    free_list_head := none
    num_free_bytes := 0 }

/-- Post-allocation state of `c2_state` after a successful 16-byte request:
the single block is allocated and carries the destructor thunk. -/
def c7_ok_state : TLState :=
  { mem := c2_memsource
    store := [(1008, ⟨none, 16, HEADERFLAG_ALLOCATED, some .returns⟩)]
    free_list_head := none
    num_free_bytes := 0 }

/-- Witness for C7: against the exhausted allocator the facade waits once
and surfaces the retry's result; against the healthy allocator it returns
the first attempt's success with zero waits. -/
theorem c7_witness :
    gc_allocate_for_value c7_oom_state c2_state 16 8 .returns 5 =
      (tl_allocate_for_value c2_state 16 8 .returns 5, 1)
    ∧ gc_allocate_for_value c2_state c7_oom_state 16 8 .returns 5 =
      (.ok c7_ok_state 1040, 0) :=
  ⟨(c7_oom_waits_and_retries_exactly_once c7_oom_state c2_state 16 8 .returns 5).1 (by decide),
   (c7_oom_waits_and_retries_exactly_once c2_state c7_oom_state 16 8 .returns 5).2
     (.ok c7_ok_state 1040) (by decide) (by decide)⟩

/-- C10.  Zero-sized values bypass the allocator entirely: the thread-local
`allocate_for_value` returns `NonNull::dangling()` (address = the type's
alignment) with the allocator state unchanged — no heap block, no free-list
change, no destructor registration — and hence the facade succeeds
immediately with no collection wait (so `Gc::new`/`GcMut::new`, which wrap
the facade call, succeed too); whereas the raw `Allocator::allocate` rejects
any zero-size layout with an error (`ZeroSized` at the TLAllocator layer,
`AllocError` at the facade). -/
theorem c10_zero_sized_values_bypass_the_allocator
    (st stGC : TLState) (alignT : Nat) (tb : ThunkBehavior)
    (fuel lalign fuel2 : Nat) :
    tl_allocate_for_value st 0 alignT tb fuel = .ok st alignT
    ∧ gc_allocate_for_value st stGC 0 alignT tb fuel = (.ok st alignT, 0)
    ∧ raw_allocate st 0 lalign fuel2 = .err .ZeroSized
    ∧ gc_allocator_allocate st 0 lalign fuel2 = .allocErr :=
  ⟨rfl, rfl, rfl, rfl⟩

/- Sweeping (collector/sweeping.rs). -/

/-- Destructor invocation `destruct_block_data` (sweeping.rs lines 6-33):
no thunk means nothing to do; a registered thunk is run inside
`catch_unwind`, so a panic is caught, logged, and returned as an `Err`
payload instead of propagating. -/
def destruct_block_data (b : GCHeapBlockHeader) : Except String Unit :=
  match b.drop_thunk with
  | none => .ok ()
  | some .returns => .ok ()
  | some (.panics p) => .error p

/-- The sweep loop `sweep_heap` (sweeping.rs lines 35-74) over the block
list: free blocks and live blocks are skipped; every other (allocated, dead)
block has `destruct_block_data` run on it — its result deliberately ignored
— and is then yielded for reclamation.  Returns the yielded addresses and
the trace of destructor invocations with their outcomes. -/
def sweep_heap : List (Nat × GCHeapBlockHeader) → List Nat →
    List Nat × List (Nat × Except String Unit)
  | [], _ => ([], [])
  | (a, b) :: rest, live =>
    if b.is_allocated = false then sweep_heap rest live
    else if a ∈ live then sweep_heap rest live
    else
      let tail := sweep_heap rest live
      (a :: tail.1, (a, destruct_block_data b) :: tail.2)

/-- Sweeping yields the same reclaimed blocks whatever the destructor thunks
are: erasing every thunk changes nothing about which blocks are freed. -/
theorem sweep_heap_yield_ignores_thunks
    (blocks : List (Nat × GCHeapBlockHeader)) (live : List Nat) :
    (sweep_heap blocks live).1 =
      (sweep_heap (blocks.map (fun e => (e.1, { e.2 with drop_thunk := none }))) live).1 := by
  induction blocks with
  | nil => rfl
  | cons hd rest ih =>
    obtain ⟨a, b⟩ := hd
    show (sweep_heap ((a, b) :: rest) live).1 = _
    rw [sweep_heap, List.map_cons, sweep_heap]
    have hflag : ({ b with drop_thunk := none } : GCHeapBlockHeader).is_allocated
        = b.is_allocated := rfl
    rw [hflag]
    by_cases h1 : b.is_allocated = false
    · rw [if_pos h1, if_pos h1, ih]
    · rw [if_neg h1, if_neg h1]
      by_cases h2 : a ∈ live
      · rw [if_pos h2, if_pos h2, ih]
      · rw [if_neg h2, if_neg h2]
        simpa using ih

/-- Every allocated block not in the live set is yielded by the sweep, and
its destructor invocation (with whatever outcome) is recorded. -/
theorem sweep_mem_of_dead_allocated :
    ∀ (blocks : List (Nat × GCHeapBlockHeader)) (live : List Nat)
      (a : Nat) (b : GCHeapBlockHeader),
    (a, b) ∈ blocks → b.is_allocated = true → a ∉ live →
    a ∈ (sweep_heap blocks live).1
      ∧ (a, destruct_block_data b) ∈ (sweep_heap blocks live).2
  | [], _, a, b, hmem, _, _ => absurd hmem (by simp)
  | (c, d) :: rest, live, a, b, hmem, halloc, hdead => by
    rcases List.mem_cons.mp hmem with heq | hmem2
    · obtain ⟨ha, hb⟩ := Prod.mk.injEq .. ▸ heq
      subst ha
      subst hb
      rw [sweep_heap, if_neg (by simp [halloc]), if_neg hdead]
      exact ⟨List.mem_cons_self .., List.mem_cons_self ..⟩
    · have ih := sweep_mem_of_dead_allocated rest live a b hmem2 halloc hdead
      rw [sweep_heap]
      by_cases h1 : d.is_allocated = false
      · rw [if_pos h1]
        exact ih
      · rw [if_neg h1]
        by_cases h2 : c ∈ live
        · rw [if_pos h2]
          exact ih
        · rw [if_neg h2]
          exact ⟨List.mem_cons_of_mem _ ih.1, List.mem_cons_of_mem _ ih.2⟩

/-- C6.  During sweeping, every allocated block outside the live set is
yielded for reclamation in the same cycle, and its destructor is invoked
exactly when one is registered, inside the `catch_unwind` failure boundary:
the recorded invocation outcome is `Err(payload)` for a panicking destructor
(caught and logged, never propagated — `destruct_block_data` is total), and
the set of reclaimed blocks does not depend on destructor thunks at all, so
one failing destructor prevents neither its own block's reclamation nor any
other's. -/
theorem c6_sweep_reclaims_despite_destructor_panics
    (blocks : List (Nat × GCHeapBlockHeader)) (live : List Nat) (i : Nat)
    (h : i < blocks.length)
    (halloc : (blocks.get ⟨i, h⟩).2.is_allocated = true)
    (hdead : (blocks.get ⟨i, h⟩).1 ∉ live) :
    (blocks.get ⟨i, h⟩).1 ∈ (sweep_heap blocks live).1
    ∧ ((blocks.get ⟨i, h⟩).1, destruct_block_data (blocks.get ⟨i, h⟩).2)
        ∈ (sweep_heap blocks live).2
    ∧ (sweep_heap blocks live).1 =
        (sweep_heap (blocks.map (fun e => (e.1, { e.2 with drop_thunk := none }))) live).1 := by
  have key := sweep_mem_of_dead_allocated blocks live
    (blocks.get ⟨i, h⟩).1 (blocks.get ⟨i, h⟩).2
    (List.get_mem blocks i h) halloc hdead
  exact ⟨key.1, key.2, sweep_heap_yield_ignores_thunks blocks live⟩

/-- Heap with a panicking destructor at 16, a live block at 80, a
destructor-less dead block at 144 and a free block at 208. -/
def c6_blocks : List (Nat × GCHeapBlockHeader) :=
  [(16, ⟨none, 32, HEADERFLAG_ALLOCATED, some (.panics "boom")⟩),
   (80, ⟨none, 32, HEADERFLAG_ALLOCATED, some .returns⟩),
   (144, ⟨none, 32, HEADERFLAG_ALLOCATED, none⟩),
   (208, ⟨some 999, 32, HEADERFLAG_NONE, none⟩)]

/-- Witness for C6: the block at 16, whose destructor panics with "boom",
is still reclaimed; the panic is recorded as a caught `Err`; and erasing all
thunks leaves the reclaimed set unchanged. -/
theorem c6_witness :
    16 ∈ (sweep_heap c6_blocks [80]).1
    ∧ (16, destruct_block_data ⟨none, 32, HEADERFLAG_ALLOCATED, some (.panics "boom")⟩)
        ∈ (sweep_heap c6_blocks [80]).2
    ∧ (sweep_heap c6_blocks [80]).1 =
        (sweep_heap (c6_blocks.map (fun e => (e.1, { e.2 with drop_thunk := none }))) [80]).1 :=
  c6_sweep_reclaims_despite_destructor_panics c6_blocks [80] 0 (by decide)
    (by decide) (by decide)

/- Reclamation load balancing (collector/mod.rs, `free_blocks` lines
   108-133 and its two invocations in `gc_main` lines 249-267).  Allocators
   are represented by their `free_bytes` loads; the `BinaryHeap` of
   `FreeByteComparer` (whose `Ord` is reversed) always pops an allocator of
   minimal `free_bytes`, hands it the next freed block via `reclaim_block`
   (which adds the block's size to its `free_bytes`), and pushes it back. -/

/-- Index of the (first) allocator with minimal load, the element the
reversed-order `BinaryHeap` pops. -/
def minIdx : List Nat → Nat
  | [] => 0
  | [_] => 0
  | x :: y :: rest =>
    if x ≤ (y :: rest).getD (minIdx (y :: rest)) 0 then 0 else minIdx (y :: rest) + 1

/-- One round of the distribution loop: `reclaim_block` adds the freed
block's size to the popped (least-loaded) allocator's `free_bytes`. -/
def distribute_step (loads : List Nat) (sz : Nat) : List Nat :=
  loads.set (minIdx loads) (loads.getD (minIdx loads) 0 + sz)

/-- The collector's `free_blocks`: fold the freed blocks (by size) over the
allocator loads, each one going to the currently least-loaded allocator. -/
def free_blocks (loads : List Nat) (blocks : List Nat) : List Nat :=
  blocks.foldl distribute_step loads

/-- The popped index is in range for a nonempty load vector. -/
theorem minIdx_lt_length : ∀ (l : List Nat), l ≠ [] → minIdx l < l.length
  | [], h => absurd rfl h
  | [_], _ => by simp [minIdx]
  | x :: y :: rest, _ => by
    by_cases hc : x ≤ (y :: rest).getD (minIdx (y :: rest)) 0
    · rw [minIdx, if_pos hc]
      simp
    · rw [minIdx, if_neg hc]
      have := minIdx_lt_length (y :: rest) (by simp)
      simpa using Nat.succ_lt_succ this

/-- The popped allocator's load is minimal among all allocators. -/
theorem minIdx_getD_le : ∀ (l : List Nat) (j : Nat), j < l.length →
    l.getD (minIdx l) 0 ≤ l.getD j 0
  | [], j, hj => by simp at hj
  | [x], j, hj => by
    simp only [List.length_singleton, Nat.lt_one_iff] at hj
    subst hj
    simp [minIdx]
  | x :: y :: rest, j, hj => by
    have ih := minIdx_getD_le (y :: rest)
    by_cases hc : x ≤ (y :: rest).getD (minIdx (y :: rest)) 0
    · rw [minIdx, if_pos hc]
      cases j with
      | zero => simp
      | succ k =>
        simp only [List.getD_cons_zero, List.getD_cons_succ]
        exact le_trans hc (ih k (by simpa using hj))
    · rw [minIdx, if_neg hc]
      cases j with
      | zero =>
        simp only [List.getD_cons_zero, List.getD_cons_succ]
        exact le_of_lt (not_le.mp hc)
      | succ k =>
        simp only [List.getD_cons_succ]
        exact ih k (by simpa using hj)

/-- Distribution never changes how many allocators there are. -/
theorem free_blocks_length (loads bs : List Nat) :
    (free_blocks loads bs).length = loads.length := by
  induction bs generalizing loads with
  | nil => rfl
  | cons b rest ih =>
    show (free_blocks (distribute_step loads b) rest).length = _
    rw [ih, distribute_step, List.length_set]

/-- Step characterization: distributing the first `k + 1` blocks is
distributing the first `k` and then handing block `k` to the least-loaded
allocator of the intermediate loads. -/
theorem free_blocks_take_succ :
    ∀ (bs : List Nat) (k : Nat) (loads : List Nat), k < bs.length →
    free_blocks loads (bs.take (k + 1)) =
      distribute_step (free_blocks loads (bs.take k)) (bs.getD k 0)
  | [], _, _, h => absurd h (by simp)
  | _ :: _, 0, _, _ => rfl
  | b :: rest, k + 1, loads, h =>
    free_blocks_take_succ rest k (distribute_step loads b) (by simpa using h)

/-- C8.  Reclaimed blocks from the deallocation queue (`qs`) and from the
sweep (`ss`) are distributed in one combined sequence (the two `free_blocks`
calls in `gc_main` compose), and each successive freed block is handed to an
allocator whose `free_bytes` is minimal at that moment: after the first `k`
blocks have been credited, block `k` goes (by `distribute_step`) to index
`minIdx` of the intermediate loads, which is in range and carries a load
less than or equal to every allocator's. -/
theorem c8_blocks_go_to_least_loaded_allocator
    (loads qs ss : List Nat) (hne : loads ≠ []) :
    free_blocks (free_blocks loads qs) ss = free_blocks loads (qs ++ ss)
    ∧ ∀ k, k < (qs ++ ss).length →
        (free_blocks loads ((qs ++ ss).take (k + 1)) =
          distribute_step (free_blocks loads ((qs ++ ss).take k)) ((qs ++ ss).getD k 0))
        ∧ minIdx (free_blocks loads ((qs ++ ss).take k)) <
            (free_blocks loads ((qs ++ ss).take k)).length
        ∧ ∀ j, j < (free_blocks loads ((qs ++ ss).take k)).length →
            (free_blocks loads ((qs ++ ss).take k)).getD
                (minIdx (free_blocks loads ((qs ++ ss).take k))) 0
              ≤ (free_blocks loads ((qs ++ ss).take k)).getD j 0 := by
  refine ⟨by simp [free_blocks, List.foldl_append], ?_⟩
  intro k hk
  have hne2 : free_blocks loads ((qs ++ ss).take k) ≠ [] := by
    have hlen := free_blocks_length loads ((qs ++ ss).take k)
    intro hcon
    rw [hcon] at hlen
    simp only [List.length_nil] at hlen
    exact hne (List.length_eq_zero.mp hlen.symm)
  exact ⟨free_blocks_take_succ (qs ++ ss) k loads hk,
         minIdx_lt_length _ hne2,
         fun j hj => minIdx_getD_le _ j hj⟩

/-- Witness for C8 with three allocators loaded 5, 3, 7, a one-block queue
and a one-block sweep: composition holds and the second block goes to the
least-loaded intermediate allocator. -/
theorem c8_witness :
    free_blocks (free_blocks [5, 3, 7] [4]) [2] = free_blocks [5, 3, 7] ([4] ++ [2])
    ∧ (free_blocks [5, 3, 7] (([4] ++ [2]).take 2) =
        distribute_step (free_blocks [5, 3, 7] (([4] ++ [2]).take 1)) (([4] ++ [2]).getD 1 0))
    ∧ minIdx (free_blocks [5, 3, 7] (([4] ++ [2]).take 1)) <
        (free_blocks [5, 3, 7] (([4] ++ [2]).take 1)).length
    ∧ (free_blocks [5, 3, 7] (([4] ++ [2]).take 1)).getD
          (minIdx (free_blocks [5, 3, 7] (([4] ++ [2]).take 1))) 0
        ≤ (free_blocks [5, 3, 7] (([4] ++ [2]).take 1)).getD 0 0 := by
  have h := c8_blocks_go_to_least_loaded_allocator [5, 3, 7] [4] [2] (by decide)
  have h1 := h.2 1 (by decide)
  exact ⟨h.1, h1.1, h1.2.1, h1.2.2 0 (by decide)⟩

/- The smart pointers (smart_pointers.rs). -/

/-- A `Gc<T>`/`GcMut<T>` handle: a bare pointer into managed memory. -/
structure GcHandle where
  addr : Nat
  deriving DecidableEq

/-- The `PartialEq` implementations for both `Gc<T>` (smart_pointers.rs
lines 139-143) and `GcMut<T>` (lines 338-342) have body `self == other`,
which resolves to the very same `eq` on the same two references: each call
step consumes one stack frame (one unit of fuel) and recurses with the same
arguments, producing a value only — never — when the fuel runs out.
`valueEq` is the pointee's `PartialEq`, which the body never consults. -/
def gc_eq_fuel (valueEq : Nat → Nat → Bool) (a b : GcHandle) : Nat → Option Bool
  | 0 => none
  | fuel + 1 => gc_eq_fuel valueEq a b fuel

/-- C9.  Equality of `Gc`/`GcMut` handles never returns: under any finite
call depth the recursion `self == other` produces no boolean, and its
outcome is independent of the two handles (their addresses are never
compared) and of the pointed-to values' equality function (the pointees are
never compared either). -/
theorem c9_partial_eq_never_returns
    (veq veq2 : Nat → Nat → Bool) (a b a2 b2 : GcHandle) (fuel : Nat) :
    gc_eq_fuel veq a b fuel = none
    ∧ gc_eq_fuel veq a b fuel = gc_eq_fuel veq2 a2 b2 fuel := by
  have key : ∀ (ve : Nat → Nat → Bool) (x y : GcHandle) (f : Nat),
      gc_eq_fuel ve x y f = none := by
    intro ve x y f
    induction f with
    | zero => rfl
    | succ n ih => exact ih
  exact ⟨key veq a b fuel, (key veq a b fuel).trans (key veq2 a2 b2 fuel).symm⟩
